import Mathlib

/-!
Shallow embedding of the rslogo interpreter core (src/constants.rs,
src/evaluator.rs, src/turtle.rs, src/parser.rs) together with theorems
checking the natural-language specification against it.

Conventions used throughout:
* Rust `i32` values are modelled as `Int`; where the source performs `i32`
  arithmetic that can overflow, the two's-complement wrap is made explicit
  through `wrap32` (release-profile semantics; all in-range results agree
  with the mathematical operation).
* `print_error(kind, _, _, true)` prints a diagnostic and exits the
  process; it is modelled as the error outcome `EvalErr.printError kind`.
  A Rust panic (`Option::unwrap` on `None`) is the distinct outcome
  `EvalErr.panic`.
* The turtle/rendering module is, per the specification, an external sink;
  every call the evaluator makes into it is recorded in an operation trace.
  The parts of `turtle.rs` whose mathematics is internal to this repository
  (pen state, pen colour, heading arithmetic, set_x/set_y) are embedded
  faithfully; the coordinate updates of `forward`/`back` are performed by
  the external `unsvg` crate and are not part of this repository.
* The Rust scope stack is a `Vec` pushed at the back and searched from the
  back; it is modelled as a list whose HEAD is the most recent entry, so
  push = cons, pop = tail, and lookup = first match from the head.
-/

/-- Rust `String::to_lowercase`, restricted to the character-wise ASCII
case mapping (the identifiers and literals accepted by the parser are
alphanumeric/underscore, for which this agrees with the source). -/
def to_lowercase (s : String) : String := String.mk (s.data.map Char.toLower)

/-- `(n + 2^31) mod 2^32 - 2^31`: two's-complement wrap of an `i32`
operation result. For `-2^31 ≤ n < 2^31` it is the identity. -/
def wrap32 (n : Int) : Int := (n + 2 ^ 31) % 2 ^ 32 - 2 ^ 31

/-- `n` is representable as an `i32`. -/
def inI32 (n : Int) : Prop := -(2 ^ 31) ≤ n ∧ n < 2 ^ 31

instance (n : Int) : Decidable (inI32 n) := by unfold inI32; infer_instance

/-- `constants.rs`: `Identifier(name, access_modifier)`. -/
structure Identifier where
  name : String
  access_modifier : String
deriving DecidableEq, Repr

/-- `constants.rs`: the `Expression` AST. -/
inductive Expression where
  | Addition (lhs rhs : Expression)
  | Subtraction (lhs rhs : Expression)
  | Multiplication (lhs rhs : Expression)
  | Division (lhs rhs : Expression)
  | Modulo (lhs rhs : Expression)
  | And (lhs rhs : Expression)
  | Or (lhs rhs : Expression)
  | Equals (lhs rhs : Expression)
  | NotEquals (lhs rhs : Expression)
  | GreaterThan (lhs rhs : Expression)
  | LessThan (lhs rhs : Expression)
  | QueryXCor
  | QueryYCor
  | QueryHeading
  | QueryColor
  | VariableReference (name : String)
  | StringLiteral (value : String)
  | IntegerLiteral (value : Int)
deriving DecidableEq, Repr

/-- `constants.rs`: the `Statement` AST; `Block = Vec<Statement>` is
`List Statement`. -/
inductive Statement where
  | PenUp
  | PenDown
  | Forward (expr : Expression)
  | Back (expr : Expression)
  | Left (expr : Expression)
  | Right (expr : Expression)
  | Turn (expr : Expression)
  | SetX (expr : Expression)
  | SetY (expr : Expression)
  | SetHeading (expr : Expression)
  | SetPenColor (expr : Expression)
  | Make (id : Identifier) (expr : Expression)
  | AddAssign (id : Identifier) (expr : Expression)
  | If (cond : Expression) (block : List Statement)
  | While (cond : Expression) (block : List Statement)
  | Repeat (count : Expression) (block : List Statement)
  | ProcedureDefinition (name : Identifier) (parameters : List Expression)
      (body : List Statement)
  | ProcedureCall (name : Identifier) (arguments : List Expression)
deriving Repr

abbrev Block := List Statement

/-- `evaluator.rs`: runtime value of an evaluated expression. -/
structure ExpressionValue where
  value_type : String
  integer_value : Option Int
  string_value : Option String
deriving DecidableEq, Repr

/-- The integer-valued `ExpressionValue` literal the source builds with
`value_type: "integer"`. -/
def integerValue (n : Int) : ExpressionValue :=
  { value_type := "integer", integer_value := some n, string_value := none }

/-- The string-valued `ExpressionValue` literal the source builds with
`value_type: "string"`. -/
def stringValue (s : String) : ExpressionValue :=
  { value_type := "string", integer_value := none, string_value := some s }

/-- How an evaluation step fails: `printError kind` models
`print_error(kind, _, _, true)` (diagnostic + process exit); `panic` models
a Rust panic such as `Option::unwrap` on `None`. -/
inductive EvalErr where
  | printError (kind : String)
  | panic
deriving DecidableEq, Repr

/-- Rust `Option::unwrap` on the `integer_value` field: `None` panics. -/
def unwrapInt : Option Int → Except EvalErr Int
  | some n => .ok n
  | none => .error .panic

/-- One call from the evaluator into the turtle collaborator. -/
inductive TurtleOp where
  | penup
  | pendown
  | forward (distance : Int)
  | back (distance : Int)
  | left (degrees : Int)
  | right (degrees : Int)
  | setx (x : Int)
  | sety (y : Int)
  | setheading (degrees : Int)
  | setpencolor (color : Int)
deriving DecidableEq, Repr

/-- `turtle.rs`: the turtle state, together with the trace of calls the
evaluator has made into it (oldest first). `x`, `y` and `heading` stay
integral because every update the evaluator performs feeds them integers
(`integer_value.unwrap() as f64`) and `rem_euclid(360.0)` of an integral
`f64` is exact. -/
structure Turtle where
  x : Int
  y : Int
  heading : Int
  pen_down : Bool
  pen_color : Int
  trace : List TurtleOp
deriving DecidableEq, Repr

/-- `Turtle::new(width, height, path)`. -/
def Turtle.new (width height : Nat) : Turtle :=
  { x := (width / 2 : Nat), y := (height / 2 : Nat), heading := 0,
    pen_down := false, pen_color := 7, trace := [] }

def Turtle.penup (t : Turtle) : Turtle :=
  { t with pen_down := false, trace := t.trace ++ [.penup] }

def Turtle.pendown (t : Turtle) : Turtle :=
  { t with pen_down := true, trace := t.trace ++ [.pendown] }

/-- `set_pen_color` rejects colours outside `0..=15` with a fatal
"invalid color" diagnostic. -/
def Turtle.set_pen_color (t : Turtle) (color : Int) : Except EvalErr Turtle :=
  if color < 0 ∨ 15 < color then .error (.printError "invalid color")
  else .ok { t with pen_color := color, trace := t.trace ++ [.setpencolor color] }

/-- `forward`: the coordinate update is computed by the external `unsvg`
crate (`draw_simple_line`/`get_end_coordinates`), an excluded collaborator
per the specification, so only the call is recorded here. -/
def Turtle.forward (t : Turtle) (distance : Int) : Turtle :=
  { t with trace := t.trace ++ [.forward distance] }

/-- `back`: see `Turtle.forward`. -/
def Turtle.back (t : Turtle) (distance : Int) : Turtle :=
  { t with trace := t.trace ++ [.back distance] }

def Turtle.left (t : Turtle) (degrees : Int) : Turtle :=
  { t with heading := (t.heading - degrees) % 360, trace := t.trace ++ [.left degrees] }

def Turtle.right (t : Turtle) (degrees : Int) : Turtle :=
  { t with heading := (t.heading + degrees) % 360, trace := t.trace ++ [.right degrees] }

def Turtle.set_heading (t : Turtle) (degrees : Int) : Turtle :=
  { t with heading := degrees % 360, trace := t.trace ++ [.setheading degrees] }

def Turtle.set_x (t : Turtle) (x : Int) : Turtle :=
  { t with x := x, trace := t.trace ++ [.setx x] }

def Turtle.set_y (t : Turtle) (y : Int) : Turtle :=
  { t with y := y, trace := t.trace ++ [.sety y] }

def Turtle.xcor (t : Turtle) : Int := t.x

def Turtle.ycor (t : Turtle) : Int := t.y

def Turtle.headingQ (t : Turtle) : Int := t.heading

def Turtle.color (t : Turtle) : Int := t.pen_color

/-- `evaluator.rs`: `ProgramState`. The scope stack has its most recent
entry at the head (the `Vec` pushes at the back and searches in reverse);
the procedure `HashMap` is an association list whose `insert` prepends, so
the first match wins, matching overwrite-on-insert lookup behaviour. -/
structure ProgramState where
  turtle : Turtle
  stack : List (String × Option ExpressionValue)
  procedures : List (String × (List String × Block))
deriving Repr

/-- `ProgramState::push`. -/
def ProgramState.push (s : ProgramState) (name : String)
    (value : Option ExpressionValue) : ProgramState :=
  { s with stack := (name, value) :: s.stack }

/-- `ProgramState::pop`. -/
def ProgramState.pop (s : ProgramState) : ProgramState :=
  { s with stack := s.stack.tail }

/-- The reverse search of `ProgramState::get`: first match starting from
the most recent entry. -/
def getStack : List (String × Option ExpressionValue) → String →
    Option (Option ExpressionValue)
  | [], _ => none
  | (n, v) :: rest, name => if n = name then some v else getStack rest name

/-- `ProgramState::get`. -/
def ProgramState.get (s : ProgramState) (name : String) :
    Option (Option ExpressionValue) := getStack s.stack name

/-- Whether any stack entry carries `name` (the search loop of
`ProgramState::set` finds a match). -/
def stackContains : List (String × Option ExpressionValue) → String → Bool
  | [], _ => false
  | (n, _) :: rest, name => if n = name then true else stackContains rest name

/-- Replace the most recent entry named `name` in place (the in-loop
branch of `ProgramState::set`). -/
def replaceMostRecent : List (String × Option ExpressionValue) → String →
    Option ExpressionValue → List (String × Option ExpressionValue)
  | [], _, _ => []
  | (n, w) :: rest, name, value =>
    if n = name then (n, value) :: rest
    else (n, w) :: replaceMostRecent rest name value

/-- `ProgramState::set`: search-and-replace the most recent binding in
place; if the name is absent anywhere, fall through to a push. -/
def setStack (stack : List (String × Option ExpressionValue)) (name : String)
    (value : Option ExpressionValue) : List (String × Option ExpressionValue) :=
  if stackContains stack name then replaceMostRecent stack name value
  else (name, value) :: stack

/-- `ProgramState::set` lifted to the state. -/
def ProgramState.set (s : ProgramState) (name : String)
    (value : Option ExpressionValue) : ProgramState :=
  { s with stack := setStack s.stack name value }

/-- `ProgramState::get_error_handled`: distinguishes a missing binding
from a declared-but-uninitialised one. -/
def ProgramState.get_error_handled (s : ProgramState) (name : String) :
    Except EvalErr ExpressionValue :=
  match s.get name with
  | some (some value) => .ok value
  | some none => .error (.printError "variable not initialised")
  | none => .error (.printError "variable not found")

/-- First-match lookup in the procedure table (`HashMap::get` under the
prepend-on-insert representation). -/
def proceduresGet : List (String × (List String × Block)) → String →
    Option (List String × Block)
  | [], _ => none
  | (n, p) :: rest, name => if n = name then some p else proceduresGet rest name

/-- `evaluator.rs`: `evaluate_expression`. Expression evaluation reads the
state but never mutates it (the `&mut` in the source is only for the
turtle queries), so it returns a plain value. `i32` addition, subtraction
and multiplication wrap (`wrap32`); `i32` division and remainder panic at
`i32::MIN / -1` exactly as the native operations do. -/
def evaluate_expression : Expression → ProgramState → Except EvalErr ExpressionValue
  | .IntegerLiteral value, _ => .ok (integerValue value)
  | .StringLiteral value, _ =>
    if to_lowercase value = "true" ∨ to_lowercase value = "false" then
      .ok (integerValue (if to_lowercase value = "true" then 1 else 0))
    else
      .ok (stringValue value)
  | .VariableReference name, s => s.get_error_handled name
  | .QueryXCor, s => .ok (integerValue s.turtle.xcor)
  | .QueryYCor, s => .ok (integerValue s.turtle.ycor)
  | .QueryHeading, s => .ok (integerValue s.turtle.headingQ)
  | .QueryColor, s => .ok (integerValue s.turtle.color)
  | .Addition lhs rhs, s =>
    match evaluate_expression lhs s with
    | .error e => .error e
    | .ok left =>
      match evaluate_expression rhs s with
      | .error e => .error e
      | .ok right =>
        if left.value_type ≠ "integer" ∨ right.value_type ≠ "integer" then
          .error (.printError "type mismatch")
        else
          match unwrapInt left.integer_value, unwrapInt right.integer_value with
          | .ok l, .ok r => .ok (integerValue (wrap32 (l + r)))
          | _, _ => .error .panic
  | .Subtraction lhs rhs, s =>
    match evaluate_expression lhs s with
    | .error e => .error e
    | .ok left =>
      match evaluate_expression rhs s with
      | .error e => .error e
      | .ok right =>
        if left.value_type ≠ "integer" ∨ right.value_type ≠ "integer" then
          .error (.printError "type mismatch")
        else
          match unwrapInt left.integer_value, unwrapInt right.integer_value with
          | .ok l, .ok r => .ok (integerValue (wrap32 (l - r)))
          | _, _ => .error .panic
  | .Multiplication lhs rhs, s =>
    match evaluate_expression lhs s with
    | .error e => .error e
    | .ok left =>
      match evaluate_expression rhs s with
      | .error e => .error e
      | .ok right =>
        if left.value_type ≠ "integer" ∨ right.value_type ≠ "integer" then
          .error (.printError "type mismatch")
        else
          match unwrapInt left.integer_value, unwrapInt right.integer_value with
          | .ok l, .ok r => .ok (integerValue (wrap32 (l * r)))
          | _, _ => .error .panic
  | .Division lhs rhs, s =>
    match evaluate_expression lhs s with
    | .error e => .error e
    | .ok left =>
      match evaluate_expression rhs s with
      | .error e => .error e
      | .ok right =>
        if left.value_type ≠ "integer" ∨ right.value_type ≠ "integer" then
          .error (.printError "type mismatch")
        else
          match unwrapInt right.integer_value with
          | .error e => .error e
          | .ok r =>
            if r = 0 then .error (.printError "division by zero")
            else
              match unwrapInt left.integer_value with
              | .error e => .error e
              | .ok l =>
                if l = -(2 ^ 31) ∧ r = -1 then .error .panic
                else .ok (integerValue (Int.tdiv l r))
  | .Modulo lhs rhs, s =>
    match evaluate_expression lhs s with
    | .error e => .error e
    | .ok left =>
      match evaluate_expression rhs s with
      | .error e => .error e
      | .ok right =>
        if left.value_type ≠ "integer" ∨ right.value_type ≠ "integer" then
          .error (.printError "type mismatch")
        else
          match unwrapInt right.integer_value with
          | .error e => .error e
          | .ok r =>
            if r = 0 then .error (.printError "division by zero")
            else
              match unwrapInt left.integer_value with
              | .error e => .error e
              | .ok l =>
                if l = -(2 ^ 31) ∧ r = -1 then .error .panic
                else .ok (integerValue (Int.tmod l r))
  | .And lhs rhs, s =>
    match evaluate_expression lhs s with
    | .error e => .error e
    | .ok left =>
      match evaluate_expression rhs s with
      | .error e => .error e
      | .ok right =>
        if left.value_type ≠ "integer" ∨ right.value_type ≠ "integer" then
          .error (.printError "type mismatch")
        else
          match unwrapInt left.integer_value, unwrapInt right.integer_value with
          | .ok l, .ok r =>
            .ok (integerValue (if l ≠ 0 ∧ r ≠ 0 then 1 else 0))
          | _, _ => .error .panic
  | .Or lhs rhs, s =>
    match evaluate_expression lhs s with
    | .error e => .error e
    | .ok left =>
      match evaluate_expression rhs s with
      | .error e => .error e
      | .ok right =>
        if left.value_type ≠ "integer" ∨ right.value_type ≠ "integer" then
          .error (.printError "type mismatch")
        else
          match unwrapInt left.integer_value, unwrapInt right.integer_value with
          | .ok l, .ok r =>
            .ok (integerValue (if l ≠ 0 ∨ r ≠ 0 then 1 else 0))
          | _, _ => .error .panic
  | .Equals lhs rhs, s =>
    match evaluate_expression lhs s with
    | .error e => .error e
    | .ok left =>
      match evaluate_expression rhs s with
      | .error e => .error e
      | .ok right =>
        if left.value_type ≠ "integer" ∨ right.value_type ≠ "integer" then
          .error (.printError "type mismatch")
        else
          match unwrapInt left.integer_value, unwrapInt right.integer_value with
          | .ok l, .ok r => .ok (integerValue (if l = r then 1 else 0))
          | _, _ => .error .panic
  | .NotEquals lhs rhs, s =>
    match evaluate_expression lhs s with
    | .error e => .error e
    | .ok left =>
      match evaluate_expression rhs s with
      | .error e => .error e
      | .ok right =>
        if left.value_type ≠ "integer" ∨ right.value_type ≠ "integer" then
          .error (.printError "type mismatch")
        else
          match unwrapInt left.integer_value, unwrapInt right.integer_value with
          | .ok l, .ok r => .ok (integerValue (if l ≠ r then 1 else 0))
          | _, _ => .error .panic
  | .GreaterThan lhs rhs, s =>
    match evaluate_expression lhs s with
    | .error e => .error e
    | .ok left =>
      match evaluate_expression rhs s with
      | .error e => .error e
      | .ok right =>
        if left.value_type ≠ "integer" ∨ right.value_type ≠ "integer" then
          .error (.printError "type mismatch")
        else
          match unwrapInt left.integer_value, unwrapInt right.integer_value with
          | .ok l, .ok r => .ok (integerValue (if r < l then 1 else 0))
          | _, _ => .error .panic
  | .LessThan lhs rhs, s =>
    match evaluate_expression lhs s with
    | .error e => .error e
    | .ok left =>
      match evaluate_expression rhs s with
      | .error e => .error e
      | .ok right =>
        if left.value_type ≠ "integer" ∨ right.value_type ≠ "integer" then
          .error (.printError "type mismatch")
        else
          match unwrapInt left.integer_value, unwrapInt right.integer_value with
          | .ok l, .ok r => .ok (integerValue (if l < r then 1 else 0))
          | _, _ => .error .panic

/-- Outcome of running statements: success with the updated state, a fatal
error (diagnostic-and-exit or panic), or exhaustion of the step fuel that
makes the embedding total (the source's `while` can genuinely diverge). -/
inductive EvalResult (α : Type) where
  | ok (value : α)
  | error (e : EvalErr)
  | timeout
deriving Repr

/-- The `ProcedureDefinition` arm's parameter collection loop: every
parameter must be a `StringLiteral`, otherwise a fatal "invalid parameter"
diagnostic. -/
def collectParameterNames : List Expression → Except EvalErr (List String)
  | [] => .ok []
  | .StringLiteral name :: rest =>
    match collectParameterNames rest with
    | .ok names => .ok (name :: names)
    | .error e => .error e
  | _ :: _ => .error (.printError "invalid parameter")

/-- The `ProcedureCall` arm's argument loop: each argument is evaluated in
the CURRENT state (which already contains the parameter bindings pushed by
earlier iterations), then its `(parameter, value)` pair is pushed before
the next argument is evaluated. The `[]`-parameters case is the source's
(dead) "too many arguments" branch. -/
def bindArguments : List Expression → List String → ProgramState →
    Except EvalErr ProgramState
  | [], _, s => .ok s
  | arg :: args, params, s =>
    match evaluate_expression arg s with
    | .error e => .error e
    | .ok value =>
      match params with
      | [] => .error (.printError "too many arguments")
      | p :: ps => bindArguments args ps (s.push p (some value))

/-- Pop `n` entries, as the `while parameters_pushed > 0` loop after a
procedure body does. -/
def popN (s : ProgramState) (n : Nat) : ProgramState :=
  { s with stack := s.stack.drop n }

mutual

/-- `evaluator.rs`: the statement loop of `evaluate_ast`. `fuel` bounds
the recursion depth and loop iterations so that the embedding is total; it
decreases at every recursive call and is chosen large enough at every
concrete use site. -/
def evaluate_ast (fuel : Nat) (ast : Block) (s : ProgramState) :
    EvalResult ProgramState :=
  match fuel with
  | 0 => .timeout
  | f + 1 =>
    match ast with
    | [] => .ok s
    | node :: rest =>
      match evaluate_node f node s with
      | .ok s' => evaluate_ast f rest s'
      | .error e => .error e
      | .timeout => .timeout
termination_by structural fuel

/-- `evaluator.rs`: the `match node` body of `evaluate_ast`, one statement
at a time. -/
def evaluate_node (fuel : Nat) (node : Statement) (s : ProgramState) :
    EvalResult ProgramState :=
  match fuel with
  | 0 => .timeout
  | f + 1 =>
    match node with
    | .PenUp => .ok { s with turtle := s.turtle.penup }
    | .PenDown => .ok { s with turtle := s.turtle.pendown }
    | .Forward expr =>
      match evaluate_expression expr s with
      | .error e => .error e
      | .ok distance =>
        match unwrapInt distance.integer_value with
        | .error e => .error e
        | .ok d => .ok { s with turtle := s.turtle.forward d }
    | .Back expr =>
      match evaluate_expression expr s with
      | .error e => .error e
      | .ok distance =>
        match unwrapInt distance.integer_value with
        | .error e => .error e
        | .ok d => .ok { s with turtle := s.turtle.back d }
    | .Left expr =>
      match evaluate_expression expr s with
      | .error e => .error e
      | .ok angle =>
        match unwrapInt angle.integer_value with
        | .error e => .error e
        | .ok d => .ok { s with turtle := s.turtle.left d }
    | .Right expr =>
      match evaluate_expression expr s with
      | .error e => .error e
      | .ok angle =>
        match unwrapInt angle.integer_value with
        | .error e => .error e
        | .ok d => .ok { s with turtle := s.turtle.right d }
    | .Turn expr =>
      match evaluate_expression expr s with
      | .error e => .error e
      | .ok angle =>
        match unwrapInt angle.integer_value with
        | .error e => .error e
        | .ok d => .ok { s with turtle := s.turtle.right d }
    | .SetX expr =>
      match evaluate_expression expr s with
      | .error e => .error e
      | .ok x =>
        match unwrapInt x.integer_value with
        | .error e => .error e
        | .ok v => .ok { s with turtle := s.turtle.set_x v }
    | .SetY expr =>
      match evaluate_expression expr s with
      | .error e => .error e
      | .ok y =>
        match unwrapInt y.integer_value with
        | .error e => .error e
        | .ok v => .ok { s with turtle := s.turtle.set_y v }
    | .SetHeading expr =>
      match evaluate_expression expr s with
      | .error e => .error e
      | .ok heading =>
        match unwrapInt heading.integer_value with
        | .error e => .error e
        | .ok v => .ok { s with turtle := s.turtle.set_heading v }
    | .SetPenColor expr =>
      match evaluate_expression expr s with
      | .error e => .error e
      | .ok color =>
        match unwrapInt color.integer_value with
        | .error e => .error e
        | .ok v =>
          match s.turtle.set_pen_color v with
          | .error e => .error e
          | .ok t => .ok { s with turtle := t }
    | .Make id expr =>
      match evaluate_expression expr s with
      | .error e => .error e
      | .ok value => .ok { s with stack := (id.name, some value) :: s.stack }
    | .AddAssign id expr =>
      match evaluate_expression expr s with
      | .error e => .error e
      | .ok value =>
        match s.get_error_handled id.name with
        | .error e => .error e
        | .ok current_value =>
          match unwrapInt current_value.integer_value with
          | .error e => .error e
          | .ok cur =>
            match unwrapInt value.integer_value with
            | .error e => .error e
            | .ok v =>
              .ok (s.set id.name (some (integerValue (wrap32 (cur + v)))))
    | .If expr block =>
      match evaluate_expression expr s with
      | .error e => .error e
      | .ok condition =>
        match unwrapInt condition.integer_value with
        | .error e => .error e
        | .ok c =>
          if c ≠ 0 then evaluate_ast f block s
          else .ok s
    | .While expr block => whileLoop f expr block s
    | .Repeat expr block =>
      match evaluate_expression expr s with
      | .error e => .error e
      | .ok times =>
        match unwrapInt times.integer_value with
        | .error e => .error e
        | .ok n => repeatLoop f n.toNat block s
    | .ProcedureDefinition name parameters body =>
      match collectParameterNames parameters with
      | .error e => .error e
      | .ok parameter_names =>
        .ok { s with procedures := (name.name, (parameter_names, body)) :: s.procedures }
    | .ProcedureCall name arguments =>
      match proceduresGet s.procedures name.name with
      | none => .error (.printError "procedure not found")
      | some (parameters, body) =>
        if parameters.length ≠ arguments.length then
          .error (.printError "argument count mismatch")
        else
          match bindArguments arguments parameters s with
          | .error e => .error e
          | .ok s' =>
            match evaluate_ast f body s' with
            | .ok s'' => .ok (popN s'' arguments.length)
            | .error e => .error e
            | .timeout => .timeout
termination_by structural fuel

/-- The `while evaluate_expression(cond) != 0` loop of the `While` arm. -/
def whileLoop (fuel : Nat) (cond : Expression) (block : Block)
    (s : ProgramState) : EvalResult ProgramState :=
  match fuel with
  | 0 => .timeout
  | f + 1 =>
    match evaluate_expression cond s with
    | .error e => .error e
    | .ok condition =>
      match unwrapInt condition.integer_value with
      | .error e => .error e
      | .ok c =>
        if c ≠ 0 then
          match evaluate_ast f block s with
          | .ok s' => whileLoop f cond block s'
          | .error e => .error e
          | .timeout => .timeout
        else .ok s
termination_by structural fuel

/-- The `for _ in 0..times` loop of the `Repeat` arm (`n.toNat`
iterations: zero when the evaluated count is negative). -/
def repeatLoop (fuel : Nat) (count : Nat) (block : Block) (s : ProgramState) :
    EvalResult ProgramState :=
  match fuel with
  | 0 => .timeout
  | f + 1 =>
    match count with
    | 0 => .ok s
    | c + 1 =>
      match evaluate_ast f block s with
      | .ok s' => repeatLoop f c block s'
      | .error e => .error e
      | .timeout => .timeout
termination_by structural fuel

end

/-- `evaluator.rs`: `evaluate_program` builds the initial state (empty
stack and procedure table) and runs the block; the final `generate_svg`
render is consumed by the external image collaborator. -/
def evaluate_program (turtle : Turtle) (ast : Block) (fuel : Nat) :
    EvalResult ProgramState :=
  evaluate_ast fuel ast { turtle := turtle, stack := [], procedures := [] }

/-- Projection used by concrete scenario theorems: the turtle-call trace of
a successful run. -/
def result_trace : EvalResult ProgramState → Option (List TurtleOp)
  | .ok s => some s.turtle.trace
  | _ => none

/-- Projection used by concrete scenario theorems: the scope stack of a
successful run. -/
def result_stack : EvalResult ProgramState →
    Option (List (String × Option ExpressionValue))
  | .ok s => some s.stack
  | _ => none

/-! ### Parser embedding (`parser.rs`)

The source is built on `nom` combinators over `&str`; the embedding works
on `List Char`. A parse step either succeeds with the remaining input and
a value, fails recoverably (`nom`'s `Err::Error`, which `alt`/`many0`
backtrack over), or fatally (`print_error(_, _, _, true)` inside a parser,
which terminates the process and which therefore propagates through every
combinator). The recursive grammar functions carry a fuel argument that
decreases at every call; `parse_program` supplies a fuel that is far
larger than the recursion depth any input of its length can produce, so
the fuel never runs out on the defined entry points. -/

abbrev PInput := List Char

/-- Result of one parser step; see the section comment. -/
inductive PResult (α : Type) where
  | ok (rest : PInput) (val : α)
  | err
  | fatal (kind : String)
deriving Repr

abbrev Parser (α : Type) := PInput → PResult α

/-- Sequence two steps (the `?` operator of the source): recoverable and
fatal failures propagate. -/
def pbind {α β : Type} (r : PResult α) (f : PInput → α → PResult β) : PResult β :=
  match r with
  | .ok rest v => f rest v
  | .err => .err
  | .fatal k => .fatal k

/-- Ordered choice (`nom::branch::alt`): try the next alternative only on
a recoverable failure; a fatal diagnostic has already exited the process. -/
def orElseP {α : Type} (r : PResult α) (q : Unit → PResult α) : PResult α :=
  match r with
  | .err => q ()
  | r => r

/-- `nom::bytes::complete::tag`: case-sensitive literal. -/
def tag (t : List Char) : Parser (List Char) := fun i =>
  if t.isPrefixOf i then .ok (i.drop t.length) t else .err

/-- `nom::bytes::complete::tag_no_case` (ASCII case folding); returns the
consumed input slice in its original casing. -/
def tag_no_case (t : List Char) : Parser (List Char) := fun i =>
  let taken := i.take t.length
  if taken.map Char.toLower = t.map Char.toLower then .ok (i.drop t.length) taken
  else .err

/-- The characters `nom`'s `multispace` recognises. -/
def multispace_char (c : Char) : Bool :=
  c == ' ' || c == '\t' || c == '\n' || c == '\r'

/-- `multispace0`. -/
def multispace0 : Parser (List Char) := fun i =>
  .ok (i.dropWhile multispace_char) (i.takeWhile multispace_char)

/-- `multispace1`. -/
def multispace1 : Parser (List Char) := fun i =>
  let taken := i.takeWhile multispace_char
  if taken.isEmpty then .err
  else .ok (i.dropWhile multispace_char) taken

/-- `nom::bytes::complete::take_while1`. -/
def take_while1 (pred : Char → Bool) : Parser (List Char) := fun i =>
  let taken := i.takeWhile pred
  if taken.isEmpty then .err
  else .ok (i.dropWhile pred) taken

/-- `nom::character::complete::digit1`. -/
def digit1 : Parser (List Char) := take_while1 Char.isDigit

/-- `nom::character::complete::line_ending`: `"\n"` or `"\r\n"`. -/
def line_ending : Parser (List Char) := fun i =>
  match i with
  | '\n' :: rest => .ok rest ['\n']
  | '\r' :: '\n' :: rest => .ok rest ['\r', '\n']
  | _ => .err

/-- `nom::character::complete::not_line_ending` (complete): everything up
to the first `\r`/`\n` (possibly empty); a lone `\r` not followed by `\n`
is a recoverable failure. -/
def not_line_ending : Parser (List Char) := fun i =>
  let taken := i.takeWhile (fun c => !(c == '\r' || c == '\n'))
  let rest := i.dropWhile (fun c => !(c == '\r' || c == '\n'))
  match rest with
  | '\r' :: r2 =>
    match r2 with
    | '\n' :: _ => .ok rest taken
    | _ => .err
  | _ => .ok rest taken

/-- Search loop of `take_until`: split the input at the first occurrence
of `t`, keeping `t` in the remainder. -/
def take_until_go (t : List Char) (i : PInput) : Option (List Char × PInput) :=
  if t.isPrefixOf i then some ([], i)
  else
    match i with
    | [] => none
    | c :: rest =>
      match take_until_go t rest with
      | some (pre, post) => some (c :: pre, post)
      | none => none
termination_by i.length

/-- `nom::bytes::complete::take_until`. -/
def take_until (t : List Char) : Parser (List Char) := fun i =>
  match take_until_go t i with
  | some (pre, post) => .ok post pre
  | none => .err

/-- Rust `str::trim` (whitespace at both ends). -/
def trimChars (l : List Char) : List Char :=
  ((l.dropWhile multispace_char).reverse.dropWhile multispace_char).reverse

/-- The character class of identifier/literal bodies:
`c.is_alphanumeric() || c == '_'` (ASCII fragment; every input exercised
here is ASCII). -/
def ident_char (c : Char) : Bool := c.isAlphanum || c == '_'

/-- Digit run to a natural number (the numeric part of `str::parse`). -/
def digitsToNat (ds : List Char) : Nat :=
  ds.foldl (fun acc c => acc * 10 + (c.toNat - '0'.toNat)) 0

/-- `parser.rs`: `parse_comment` — `//`, the rest of the line, and a
mandatory line ending. -/
def parse_comment : Parser Unit := fun i =>
  pbind (tag ("//".data) i) fun i _ =>
  pbind (not_line_ending i) fun i _ =>
  pbind (line_ending i) fun i _ =>
  .ok i ()

/-- `parser.rs`: `parse_identifier` — optional `"`/`:` sigil, then an
identifier body; a sigil-less query keyword records modifier `"Q"`. -/
def parse_identifier : Parser Identifier := fun i =>
  let (i1, pref) :=
    match tag ("\"".data) i with
    | .ok rest v => (rest, some v)
    | _ =>
      match tag (":".data) i with
      | .ok rest v => (rest, some v)
      | _ => (i, (none : Option (List Char)))
  pbind (take_while1 ident_char i1) fun i2 name =>
  let access_modifier :=
    match pref with
    | some v => String.mk v
    | none =>
      let name_str := to_lowercase (String.mk name)
      if name_str = "xcor" ∨ name_str = "ycor" ∨ name_str = "heading" ∨
          name_str = "color" then "Q"
      else ""
  .ok i2 ⟨String.mk name, access_modifier⟩

/-- `parser.rs`: `parse_integer` — `"` prefix, optional `-`, digits; a
value outside `i32` is the fatal "invalid integer" diagnostic. -/
def parse_integer : Parser Expression := fun i =>
  pbind (tag ("\"".data) i) fun i1 _ =>
  let (i2, sign) :=
    match i1 with
    | '-' :: rest => (rest, true)
    | _ => (i1, false)
  pbind (digit1 i2) fun i3 digits =>
  let value : Int := if sign then -(digitsToNat digits : Int) else (digitsToNat digits : Int)
  if -(2 ^ 31) ≤ value ∧ value ≤ 2 ^ 31 - 1 then .ok i3 (.IntegerLiteral value)
  else .fatal "invalid integer"

/-- `parser.rs`: `parse_string`. -/
def parse_string : Parser Expression := fun i =>
  pbind (tag ("\"".data) i) fun i1 _ =>
  pbind (take_while1 ident_char i1) fun i2 content =>
  .ok i2 (.StringLiteral (String.mk content))

/-- `parser.rs`: `parse_variable`. -/
def parse_variable : Parser Expression := fun i =>
  pbind (tag (":".data) i) fun i1 _ =>
  pbind (take_while1 ident_char i1) fun i2 name =>
  .ok i2 (.VariableReference (String.mk name))

/-- `parser.rs`: `parse_xcor`. -/
def parse_xcor : Parser Expression := fun i =>
  pbind (tag_no_case ("xcor".data) i) fun i1 _ => .ok i1 .QueryXCor

/-- `parser.rs`: `parse_ycor`. -/
def parse_ycor : Parser Expression := fun i =>
  pbind (tag_no_case ("ycor".data) i) fun i1 _ => .ok i1 .QueryYCor

/-- `parser.rs`: `parse_heading`. -/
def parse_heading : Parser Expression := fun i =>
  pbind (tag_no_case ("heading".data) i) fun i1 _ => .ok i1 .QueryHeading

/-- `parser.rs`: `parse_color`. -/
def parse_color : Parser Expression := fun i =>
  pbind (tag_no_case ("color".data) i) fun i1 _ => .ok i1 .QueryColor

/-- `parser.rs`: `parse_queries`. -/
def parse_queries : Parser Expression := fun i =>
  orElseP (parse_xcor i) fun _ =>
  orElseP (parse_ycor i) fun _ =>
  orElseP (parse_heading i) fun _ =>
  parse_color i

/-- `parser.rs`: `parse_penup`. -/
def parse_penup : Parser Statement := fun i =>
  pbind (tag_no_case ("penup".data) i) fun i1 _ => .ok i1 .PenUp

/-- `parser.rs`: `parse_pendown`. -/
def parse_pendown : Parser Statement := fun i =>
  pbind (tag_no_case ("pendown".data) i) fun i1 _ => .ok i1 .PenDown

/-- `parser.rs`: `check_keywords` — the peeked keyword recogniser, in
source order; returns the consumed slice. -/
def check_keywords : Parser (List Char) := fun i =>
  orElseP (tag_no_case ("penup".data) i) fun _ =>
  orElseP (tag_no_case ("pendown".data) i) fun _ =>
  orElseP (tag_no_case ("forward".data) i) fun _ =>
  orElseP (tag_no_case ("back".data) i) fun _ =>
  orElseP (tag_no_case ("left".data) i) fun _ =>
  orElseP (tag_no_case ("right".data) i) fun _ =>
  orElseP (tag_no_case ("turn".data) i) fun _ =>
  orElseP (tag_no_case ("setx".data) i) fun _ =>
  orElseP (tag_no_case ("sety".data) i) fun _ =>
  orElseP (tag_no_case ("setheading".data) i) fun _ =>
  orElseP (tag_no_case ("setpencolor".data) i) fun _ =>
  orElseP (tag_no_case ("make".data) i) fun _ =>
  orElseP (tag_no_case ("addassign".data) i) fun _ =>
  orElseP (tag_no_case ("if".data) i) fun _ =>
  orElseP (tag_no_case ("while".data) i) fun _ =>
  orElseP (tag_no_case ("repeat".data) i) fun _ =>
  orElseP (tag_no_case ("to".data) i) fun _ =>
  tag_no_case ("end".data) i

/-- Is this expression a `StringLiteral`? (the argument-type loop of
`check_errors`). -/
def isStringLiteral : Expression → Bool
  | .StringLiteral _ => true
  | _ => false

mutual

/-- `parser.rs`: `parse_expression` — binary operator forms first, then
terminal values. -/
def parse_expression (fuel : Nat) : Parser Expression := fun i =>
  match fuel with
  | 0 => .err
  | f + 1 =>
    orElseP (parse_binary_ops f i) fun _ =>
    parse_value f i
termination_by structural fuel

/-- `parser.rs`: `parse_binary_ops` — the eleven prefix operator parsers
tried in source order. -/
def parse_binary_ops (fuel : Nat) : Parser Expression := fun i =>
  match fuel with
  | 0 => .err
  | f + 1 =>
    orElseP (parse_addition f i) fun _ =>
    orElseP (parse_subtraction f i) fun _ =>
    orElseP (parse_multiplication f i) fun _ =>
    orElseP (parse_division f i) fun _ =>
    orElseP (parse_modulo f i) fun _ =>
    orElseP (parse_equals f i) fun _ =>
    orElseP (parse_not_equals f i) fun _ =>
    orElseP (parse_greater_than f i) fun _ =>
    orElseP (parse_less_than f i) fun _ =>
    orElseP (parse_and f i) fun _ =>
    parse_or f i
termination_by structural fuel

/-- The shared shape of the binary operator parsers: operator tag
(case-sensitive, as in the source), mandatory whitespace, left operand,
mandatory whitespace, right operand. -/
def parse_binary_operator (fuel : Nat) (t : List Char)
    (mk : Expression → Expression → Expression) : Parser Expression := fun i =>
  match fuel with
  | 0 => .err
  | f + 1 =>
    pbind (tag t i) fun i _ =>
    pbind (multispace1 i) fun i _ =>
    pbind (parse_expression f i) fun i left =>
    pbind (multispace1 i) fun i _ =>
    pbind (parse_expression f i) fun i right =>
    .ok i (mk left right)
termination_by structural fuel

/-- `parser.rs`: `parse_addition`. -/
def parse_addition (fuel : Nat) : Parser Expression := fun i =>
  match fuel with
  | 0 => .err
  | f + 1 => parse_binary_operator f ("+".data) .Addition i
termination_by structural fuel

/-- `parser.rs`: `parse_subtraction`. -/
def parse_subtraction (fuel : Nat) : Parser Expression := fun i =>
  match fuel with
  | 0 => .err
  | f + 1 => parse_binary_operator f ("-".data) .Subtraction i
termination_by structural fuel

/-- `parser.rs`: `parse_multiplication`. -/
def parse_multiplication (fuel : Nat) : Parser Expression := fun i =>
  match fuel with
  | 0 => .err
  | f + 1 => parse_binary_operator f ("*".data) .Multiplication i
termination_by structural fuel

/-- `parser.rs`: `parse_division`. -/
def parse_division (fuel : Nat) : Parser Expression := fun i =>
  match fuel with
  | 0 => .err
  | f + 1 => parse_binary_operator f ("/".data) .Division i
termination_by structural fuel

/-- `parser.rs`: `parse_modulo`. -/
def parse_modulo (fuel : Nat) : Parser Expression := fun i =>
  match fuel with
  | 0 => .err
  | f + 1 => parse_binary_operator f ("%".data) .Modulo i
termination_by structural fuel

/-- `parser.rs`: `parse_equals` (case-sensitive `EQ`). -/
def parse_equals (fuel : Nat) : Parser Expression := fun i =>
  match fuel with
  | 0 => .err
  | f + 1 => parse_binary_operator f ("EQ".data) .Equals i
termination_by structural fuel

/-- `parser.rs`: `parse_not_equals` (case-sensitive `NE`). -/
def parse_not_equals (fuel : Nat) : Parser Expression := fun i =>
  match fuel with
  | 0 => .err
  | f + 1 => parse_binary_operator f ("NE".data) .NotEquals i
termination_by structural fuel

/-- `parser.rs`: `parse_greater_than` (case-sensitive `GT`). -/
def parse_greater_than (fuel : Nat) : Parser Expression := fun i =>
  match fuel with
  | 0 => .err
  | f + 1 => parse_binary_operator f ("GT".data) .GreaterThan i
termination_by structural fuel

/-- `parser.rs`: `parse_less_than` (case-sensitive `LT`). -/
def parse_less_than (fuel : Nat) : Parser Expression := fun i =>
  match fuel with
  | 0 => .err
  | f + 1 => parse_binary_operator f ("LT".data) .LessThan i
termination_by structural fuel

/-- `parser.rs`: `parse_and` (case-sensitive `AND`). -/
def parse_and (fuel : Nat) : Parser Expression := fun i =>
  match fuel with
  | 0 => .err
  | f + 1 => parse_binary_operator f ("AND".data) .And i
termination_by structural fuel

/-- `parser.rs`: `parse_or` (case-sensitive `OR`). -/
def parse_or (fuel : Nat) : Parser Expression := fun i =>
  match fuel with
  | 0 => .err
  | f + 1 => parse_binary_operator f ("OR".data) .Or i
termination_by structural fuel

/-- `parser.rs`: `parse_value` — parenthesised sub-expression, queries,
integer, variable, string, in source order. -/
def parse_value (fuel : Nat) : Parser Expression := fun i =>
  match fuel with
  | 0 => .err
  | f + 1 =>
    orElseP (parse_parentheses f i) fun _ =>
    orElseP (parse_queries i) fun _ =>
    orElseP (parse_integer i) fun _ =>
    orElseP (parse_variable i) fun _ =>
    parse_string i
termination_by structural fuel

/-- `parser.rs`: `parse_parentheses`. -/
def parse_parentheses (fuel : Nat) : Parser Expression := fun i =>
  match fuel with
  | 0 => .err
  | f + 1 =>
    pbind (tag ("(".data) i) fun i _ =>
    pbind (parse_expression f i) fun i e =>
    pbind (tag (")".data) i) fun i _ =>
    .ok i e
termination_by structural fuel

/-- `parser.rs`: `parse_arguments` —
`many0(preceded(multispace1, parse_expression))`, with `nom`'s `many0`
zero-progress guard. -/
def parse_arguments (fuel : Nat) : Parser (List Expression) := fun i =>
  match fuel with
  | 0 => .err
  | f + 1 =>
    match pbind (multispace1 i) (fun i1 _ => parse_expression f i1) with
    | .err => .ok i []
    | .fatal k => .fatal k
    | .ok rest v =>
      if rest.length = i.length then .err
      else
        match parse_arguments f rest with
        | .ok rest' vs => .ok rest' (v :: vs)
        | .err => .err
        | .fatal k => .fatal k
termination_by structural fuel

/-- `parser.rs`: `parse_statement` — run `check_errors` first (its
recoverable result is discarded, but a fatal diagnostic has exited the
process), then the statement alternatives in source group order, then
trailing `multispace0`. -/
def parse_statement (fuel : Nat) : Parser Statement := fun i =>
  match fuel with
  | 0 => .err
  | f + 1 =>
    match check_errors f i with
    | .fatal k => .fatal k
    | _ =>
      pbind
        (orElseP (parse_penup i) fun _ =>
         orElseP (parse_pendown i) fun _ =>
         orElseP (parse_forward f i) fun _ =>
         orElseP (parse_back f i) fun _ =>
         orElseP (parse_left f i) fun _ =>
         orElseP (parse_right f i) fun _ =>
         orElseP (parse_turn f i) fun _ =>
         orElseP (parse_setx f i) fun _ =>
         orElseP (parse_sety f i) fun _ =>
         orElseP (parse_setheading f i) fun _ =>
         orElseP (parse_setpencolor f i) fun _ =>
         orElseP (parse_make f i) fun _ =>
         orElseP (parse_addassign f i) fun _ =>
         orElseP (parse_if f i) fun _ =>
         orElseP (parse_while f i) fun _ =>
         orElseP (parse_repeat f i) fun _ =>
         orElseP (parse_procedure_definition f i) fun _ =>
         parse_procedure_call f i)
        fun i2 statement =>
      pbind (multispace0 i2) fun i3 _ =>
      .ok i3 statement
termination_by structural fuel

/-- The shared shape of the one-argument statement parsers: keyword,
mandatory whitespace, one expression. -/
def parse_keyword_expr (fuel : Nat) (kw : List Char)
    (mk : Expression → Statement) : Parser Statement := fun i =>
  match fuel with
  | 0 => .err
  | f + 1 =>
    pbind (tag_no_case kw i) fun i _ =>
    pbind (multispace1 i) fun i _ =>
    pbind (parse_expression f i) fun i e =>
    .ok i (mk e)

/-- `parser.rs`: `parse_forward`. -/
def parse_forward (fuel : Nat) : Parser Statement := fun i =>
  match fuel with
  | 0 => .err
  | f + 1 => parse_keyword_expr f ("forward".data) .Forward i

/-- `parser.rs`: `parse_back`. -/
def parse_back (fuel : Nat) : Parser Statement := fun i =>
  match fuel with
  | 0 => .err
  | f + 1 => parse_keyword_expr f ("back".data) .Back i

/-- `parser.rs`: `parse_left`. -/
def parse_left (fuel : Nat) : Parser Statement := fun i =>
  match fuel with
  | 0 => .err
  | f + 1 => parse_keyword_expr f ("left".data) .Left i

/-- `parser.rs`: `parse_right`. -/
def parse_right (fuel : Nat) : Parser Statement := fun i =>
  match fuel with
  | 0 => .err
  | f + 1 => parse_keyword_expr f ("right".data) .Right i

/-- `parser.rs`: `parse_turn`. -/
def parse_turn (fuel : Nat) : Parser Statement := fun i =>
  match fuel with
  | 0 => .err
  | f + 1 => parse_keyword_expr f ("turn".data) .Turn i

/-- `parser.rs`: `parse_setx`. -/
def parse_setx (fuel : Nat) : Parser Statement := fun i =>
  match fuel with
  | 0 => .err
  | f + 1 => parse_keyword_expr f ("setx".data) .SetX i

/-- `parser.rs`: `parse_sety`. -/
def parse_sety (fuel : Nat) : Parser Statement := fun i =>
  match fuel with
  | 0 => .err
  | f + 1 => parse_keyword_expr f ("sety".data) .SetY i

/-- `parser.rs`: `parse_setheading`. -/
def parse_setheading (fuel : Nat) : Parser Statement := fun i =>
  match fuel with
  | 0 => .err
  | f + 1 => parse_keyword_expr f ("setheading".data) .SetHeading i

/-- `parser.rs`: `parse_setpencolor`. -/
def parse_setpencolor (fuel : Nat) : Parser Statement := fun i =>
  match fuel with
  | 0 => .err
  | f + 1 => parse_keyword_expr f ("setpencolor".data) .SetPenColor i

/-- The shared shape of `parse_make`/`parse_addassign`: keyword,
whitespace, identifier, whitespace, expression. -/
def parse_keyword_ident_expr (fuel : Nat) (kw : List Char)
    (mk : Identifier → Expression → Statement) : Parser Statement := fun i =>
  match fuel with
  | 0 => .err
  | f + 1 =>
    pbind (tag_no_case kw i) fun i _ =>
    pbind (multispace1 i) fun i _ =>
    pbind (parse_identifier i) fun i variable_name =>
    pbind (multispace1 i) fun i _ =>
    pbind (parse_expression f i) fun i variable_val =>
    .ok i (mk variable_name variable_val)

/-- `parser.rs`: `parse_make`. -/
def parse_make (fuel : Nat) : Parser Statement := fun i =>
  match fuel with
  | 0 => .err
  | f + 1 => parse_keyword_ident_expr f ("make".data) .Make i

/-- `parser.rs`: `parse_addassign`. -/
def parse_addassign (fuel : Nat) : Parser Statement := fun i =>
  match fuel with
  | 0 => .err
  | f + 1 => parse_keyword_ident_expr f ("addassign".data) .AddAssign i

/-- The shared shape of `parse_if`/`parse_while`/`parse_repeat`: keyword,
whitespace, condition expression, optional whitespace, bracketed block. -/
def parse_keyword_cond_block (fuel : Nat) (kw : List Char)
    (mk : Expression → Block → Statement) : Parser Statement := fun i =>
  match fuel with
  | 0 => .err
  | f + 1 =>
    pbind (tag_no_case kw i) fun i _ =>
    pbind (multispace1 i) fun i _ =>
    pbind (parse_expression f i) fun i condition =>
    pbind (multispace0 i) fun i _ =>
    pbind (parse_block f i) fun i block =>
    .ok i (mk condition block)
termination_by structural fuel

/-- `parser.rs`: `parse_if`. -/
def parse_if (fuel : Nat) : Parser Statement := fun i =>
  match fuel with
  | 0 => .err
  | f + 1 => parse_keyword_cond_block f ("if".data) .If i
termination_by structural fuel

/-- `parser.rs`: `parse_while`. -/
def parse_while (fuel : Nat) : Parser Statement := fun i =>
  match fuel with
  | 0 => .err
  | f + 1 => parse_keyword_cond_block f ("while".data) .While i
termination_by structural fuel

/-- `parser.rs`: `parse_repeat`. -/
def parse_repeat (fuel : Nat) : Parser Statement := fun i =>
  match fuel with
  | 0 => .err
  | f + 1 => parse_keyword_cond_block f ("repeat".data) .Repeat i
termination_by structural fuel

/-- `parser.rs`: `parse_block` — `[`, statements, optional whitespace,
`]`. -/
def parse_block (fuel : Nat) : Parser Block := fun i =>
  match fuel with
  | 0 => .err
  | f + 1 =>
    pbind (tag ("[".data) i) fun i _ =>
    pbind (parse_block_statements f i) fun i statements =>
    pbind (multispace0 i) fun i _ =>
    pbind (tag ("]".data) i) fun i _ =>
    .ok i statements
termination_by structural fuel

/-- The `many0(preceded(multispace0, parse_statement))` loop inside
`parse_block`. -/
def parse_block_statements (fuel : Nat) : Parser (List Statement) := fun i =>
  match fuel with
  | 0 => .err
  | f + 1 =>
    match pbind (multispace0 i) (fun i1 _ => parse_statement f i1) with
    | .err => .ok i []
    | .fatal k => .fatal k
    | .ok rest v =>
      if rest.length = i.length then .err
      else
        match parse_block_statements f rest with
        | .ok rest' vs => .ok rest' (v :: vs)
        | .err => .err
        | .fatal k => .fatal k
termination_by structural fuel

/-- `parser.rs`: `parse_procedure_definition` — `TO`, name, the rest of
the definition line re-parsed as the parameter list, the body text up to
the literal `"END\n"` re-parsed (trimmed) as a nested program fragment,
then the closing `end`. -/
def parse_procedure_definition (fuel : Nat) : Parser Statement := fun i =>
  match fuel with
  | 0 => .err
  | f + 1 =>
    pbind (tag_no_case ("to".data) i) fun i _ =>
    pbind (multispace1 i) fun i _ =>
    pbind (parse_identifier i) fun i identifier =>
    pbind (not_line_ending i) fun i parameters_string =>
    match parse_arguments f parameters_string with
    | .err => .err
    | .fatal k => .fatal k
    | .ok _ parameters =>
      pbind (multispace0 i) fun i _ =>
      pbind (take_until ("END\n".data) i) fun i body_string =>
      match parse_all f (trimChars body_string) with
      | .err => .err
      | .fatal k => .fatal k
      | .ok _ filtered =>
        pbind (multispace0 i) fun i _ =>
        pbind (tag_no_case ("end".data) i) fun i _ =>
        .ok i (.ProcedureDefinition identifier parameters filtered)
termination_by structural fuel

/-- `parser.rs`: `parse_procedure_call` — bare identifier, then the rest
of the line as arguments (empty-after-trim means a zero-argument call). -/
def parse_procedure_call (fuel : Nat) : Parser Statement := fun i =>
  match fuel with
  | 0 => .err
  | f + 1 =>
    pbind (parse_identifier i) fun i identifier =>
    pbind (not_line_ending i) fun i parameters_string =>
    if trimChars parameters_string = [] then
      .ok i (.ProcedureCall identifier [])
    else
      match parse_arguments f parameters_string with
      | .err => .err
      | .fatal k => .fatal k
      | .ok _ parameters => .ok i (.ProcedureCall identifier parameters)

/-- `parser.rs`: `check_errors` — peek the keyword and the rest of its
line, parse that line's arguments, and enforce the per-keyword arity and
argument-type rules with fatal diagnostics; any recoverable failure here
is discarded by `parse_statement`. -/
def check_errors (fuel : Nat) : Parser Unit := fun i =>
  match fuel with
  | 0 => .err
  | f + 1 =>
    match check_keywords i with
    | .err => .err
    | .fatal k => .fatal k
    | .ok i1 keyword =>
      match not_line_ending i1 with
      | .err => .err
      | .fatal k => .fatal k
      | .ok _ remaining =>
        match parse_arguments f remaining with
        | .err => .err
        | .fatal k => .fatal k
        | .ok _ arguments =>
          let args_len := arguments.length
          let kw := to_lowercase (String.mk keyword)
          if kw = "penup" ∨ kw = "pendown" then
            if args_len ≠ 0 then .fatal "incorrect argument count" else .ok i ()
          else if kw = "forward" ∨ kw = "back" ∨ kw = "left" ∨ kw = "right" ∨
              kw = "turn" ∨ kw = "setx" ∨ kw = "sety" ∨ kw = "setheading" ∨
              kw = "setpencolor" then
            if args_len ≠ 1 then .fatal "incorrect argument count"
            else if arguments.any isStringLiteral then .fatal "incorrect argument type"
            else .ok i ()
          else if kw = "make" ∨ kw = "addassign" then
            if args_len ≠ 2 then .fatal "incorrect argument count" else .ok i ()
          else if kw = "if" ∨ kw = "while" ∨ kw = "repeat" then
            if args_len ≠ 1 then .fatal "incorrect argument count"
            else if arguments.any isStringLiteral then .fatal "incorrect argument type"
            else .ok i ()
          else .ok i ()

/-- The `many0(preceded(multispace0, alt((comment, statement))))` loop of
`parse_all`, before comment filtering: comments become `none`, statements
`some`. -/
def parse_all_items (fuel : Nat) : Parser (List (Option Statement)) := fun i =>
  match fuel with
  | 0 => .err
  | f + 1 =>
    match
      pbind (multispace0 i) fun i1 _ =>
        match parse_comment i1 with
        | .ok r _ => .ok r (none : Option Statement)
        | .fatal k => .fatal k
        | .err =>
          match parse_statement f i1 with
          | .ok r st => .ok r (some st)
          | .err => .err
          | .fatal k => .fatal k
    with
    | .err => .ok i []
    | .fatal k => .fatal k
    | .ok rest v =>
      if rest.length = i.length then .err
      else
        match parse_all_items f rest with
        | .ok rest' vs => .ok rest' (v :: vs)
        | .err => .err
        | .fatal k => .fatal k
termination_by structural fuel

/-- `parser.rs`: `parse_all` — the top-level loop with comments filtered
out of the resulting `Block`. -/
def parse_all (fuel : Nat) : Parser Block := fun i =>
  match fuel with
  | 0 => .err
  | f + 1 =>
    match parse_all_items f i with
    | .ok rest items => .ok rest (items.filterMap id)
    | .err => .err
    | .fatal k => .fatal k
termination_by structural fuel

end

/-- Fuel that strictly dominates the recursion depth the grammar can reach
on an input of this length: every nesting level of the grammar consumes at
least one character, and a chain of at most a dozen fuelled functions sits
between consecutive consumed characters. -/
def parserFuel (content : String) : Nat := 16 * (content.length + 8)

/-- `parse_all` as `parse_program` invokes it on the whole source text. -/
def parse_all_run (content : String) : PResult Block :=
  parse_all (parserFuel content) content.data

/-- `parser.rs`: `parse_program` — on `Ok((_, ast))` the `Block` is
returned and the unconsumed remainder is discarded; a recoverable `nom`
error becomes the fatal "syntax error" diagnostic; a fatal diagnostic
raised during parsing has already exited the process with its own kind. -/
def parse_program (content : String) : Except String Block :=
  match parse_all_run content with
  | .ok _ ast => .ok ast
  | .err => .error "syntax error"
  | .fatal k => .error k

/-- `main.rs`: read, parse, evaluate. A fatal diagnostic raised during
parsing exits the process before `evaluate_program` is ever invoked, so no
turtle call is made in that case. -/
def run_program (content : String) (turtle : Turtle) (fuel : Nat) :
    EvalResult ProgramState :=
  match parse_program content with
  | .ok ast => evaluate_program turtle ast fuel
  | .error k => .error (.printError k)

/-- Turtle for the concrete scenarios (a 100×100 canvas). -/
def turtle0 : Turtle := Turtle.new 100 100

/-- Initial program state, as `evaluate_program` builds it. -/
def state0 : ProgramState := { turtle := turtle0, stack := [], procedures := [] }

/-- Modelled from the spec (§4.4): the argument-evaluation order the
specification describes — every argument expression evaluated in the
unchanged caller state. Used only as the comparison point for the claim
about the implemented `ProcedureCall` semantics. -/
def evaluate_arguments_in_caller_scope : List Expression → ProgramState →
    Except EvalErr (List ExpressionValue)
  | [], _ => .ok []
  | arg :: rest, s =>
    match evaluate_expression arg s with
    | .error e => .error e
    | .ok v =>
      match evaluate_arguments_in_caller_scope rest s with
      | .ok vs => .ok (v :: vs)
      | .error e => .error e

/-- Modelled from the spec (§4.4): procedure-call semantics as the
specification words it — "evaluate each argument expression in the
caller's scope, then push all resulting `(param_name, value)` pairs onto
the scope stack", execute the body, pop what was pushed. The comparison
point for the claim about the implemented `ProcedureCall` arm. -/
def procedure_call_spec (fuel : Nat) (name : Identifier)
    (arguments : List Expression) (s : ProgramState) : EvalResult ProgramState :=
  match proceduresGet s.procedures name.name with
  | none => .error (.printError "procedure not found")
  | some (parameters, body) =>
    if parameters.length ≠ arguments.length then
      .error (.printError "argument count mismatch")
    else
      match evaluate_arguments_in_caller_scope arguments s with
      | .error e => .error e
      | .ok values =>
        let s' := { s with stack := (parameters.zip (values.map some)).reverse ++ s.stack }
        match fuel with
        | 0 => .timeout
        | f + 1 =>
          match evaluate_ast f body s' with
          | .ok s'' => .ok (popN s'' arguments.length)
          | .error e => .error e
          | .timeout => .timeout

/-- Caller state for the argument-evaluation-order scenario: `x` bound to
`1`, and a procedure `P` with parameters `x`, `y` whose body reports `y`
through a turtle call. -/
def c2_state : ProgramState :=
  { turtle := turtle0, stack := [("x", some (integerValue 1))],
    procedures := [("P", (["x", "y"], [.Forward (.VariableReference "y")]))] }

/-- Arguments of the scenario call `P "2 :x`: the second argument reads the
name the first parameter binds. -/
def c2_call_arguments : List Expression := [.IntegerLiteral 2, .VariableReference "x"]

/-- State whose `x` holds a (non-boolean) string value. -/
def c3_state : ProgramState :=
  { turtle := turtle0, stack := [("x", some (stringValue "hello"))], procedures := [] }

/-- State whose `y` holds a (non-boolean) string value. -/
def c3_state_y : ProgramState :=
  { turtle := turtle0, stack := [("y", some (stringValue "world"))], procedures := [] }

/-- The AST that the input `PENUP 1` actually parses to. -/
def c4_ast : Block := [.PenUp, .ProcedureCall ⟨"1", ""⟩ []]

/-- `Make "x 1`, a procedure binding parameter `x` to `2` and reading `:x`
inside its body, the call, and a read of `:x` after the call returns (both
reads are made observable as `forward` calls). -/
def c5_program : Block :=
  [ .Make ⟨"x", "\""⟩ (.IntegerLiteral 1),
    .ProcedureDefinition ⟨"P", ""⟩ [.StringLiteral "x"]
      [.Forward (.VariableReference "x")],
    .ProcedureCall ⟨"P", ""⟩ [.IntegerLiteral 2],
    .Forward (.VariableReference "x") ]

/-- State whose `x` holds `Integer 5`. -/
def c6_state : ProgramState :=
  { turtle := turtle0, stack := [("x", some (integerValue 5))], procedures := [] }

/-- State with a string value (spelled like a boolean keyword) stored in
variable `b`. -/
def c8_state : ProgramState :=
  { turtle := turtle0, stack := [("b", some (stringValue "true"))], procedures := [] }

/-! ### Helper lemmas about the scope stack -/

/-- The head of the stack wins the lookup. -/
theorem getStack_cons_self (name : String) (v : Option ExpressionValue)
    (rest : List (String × Option ExpressionValue)) :
    getStack ((name, v) :: rest) name = some v := by
  simp [getStack]

/-- A differently-named head is skipped by the lookup. -/
theorem getStack_cons_other (other name : String) (v : Option ExpressionValue)
    (rest : List (String × Option ExpressionValue)) (h : other ≠ name) :
    getStack ((other, v) :: rest) name = getStack rest name := by
  simp [getStack, h]

/-- A successful lookup means the search loop of `set` will find a match. -/
theorem getStack_contains (st : List (String × Option ExpressionValue))
    (name : String) (v : Option ExpressionValue) (h : getStack st name = some v) :
    stackContains st name = true := by
  induction st with
  | nil => simp [getStack] at h
  | cons hd tl ih =>
    obtain ⟨n, w⟩ := hd
    by_cases hc : n = name
    · simp [stackContains, hc]
    · simp only [getStack, if_neg hc] at h
      simp [stackContains, hc, ih h]

/-- In-place replacement keeps the stack length. -/
theorem replaceMostRecent_length (st : List (String × Option ExpressionValue))
    (name : String) (v : Option ExpressionValue) :
    (replaceMostRecent st name v).length = st.length := by
  induction st with
  | nil => rfl
  | cons hd tl ih =>
    obtain ⟨n, w⟩ := hd
    by_cases hc : n = name
    · simp [replaceMostRecent, hc]
    · simp [replaceMostRecent, hc, ih]

/-- After an in-place replacement of a present name, looking that name up
yields the new value. -/
theorem getStack_replaceMostRecent_self (st : List (String × Option ExpressionValue))
    (name : String) (v : Option ExpressionValue) (h : stackContains st name = true) :
    getStack (replaceMostRecent st name v) name = some v := by
  induction st with
  | nil => simp [stackContains] at h
  | cons hd tl ih =>
    obtain ⟨n, w⟩ := hd
    by_cases hc : n = name
    · subst hc; simp [replaceMostRecent, getStack]
    · have h' : stackContains tl name = true := by
        simpa [stackContains, hc] using h
      simp [replaceMostRecent, hc, getStack, ih h']

/-- In-place replacement leaves every other name's lookup unchanged. -/
theorem getStack_replaceMostRecent_other (st : List (String × Option ExpressionValue))
    (name : String) (v : Option ExpressionValue) (y : String) (hy : y ≠ name) :
    getStack (replaceMostRecent st name v) y = getStack st y := by
  induction st with
  | nil => rfl
  | cons hd tl ih =>
    obtain ⟨n, w⟩ := hd
    by_cases hc : n = name
    · subst hc
      have hny : n ≠ y := fun hh => hy hh.symm
      simp [replaceMostRecent, getStack, hny]
    · by_cases hny : n = y
      · subst hny
        simp [replaceMostRecent, hc, getStack]
      · simp [replaceMostRecent, hc, getStack, hny, ih]

/-- `wrap32` is the identity on `i32`-representable values. -/
theorem wrap32_of_inI32 (n : Int) (h : inI32 n) : wrap32 n = n := by
  obtain ⟨h1, h2⟩ := h
  unfold wrap32
  omega

/-! ### Claim theorems -/

/-- Claim C10: for every expression and program state, executing
`Statement::Turn(e)` has exactly the same effect as executing
`Statement::Right(e)` — both evaluate `e` and pass the integer to the
turtle's `right()` operation — and `right` rotates clockwise (heading
increases modulo 360), so `Turn` is indistinguishable from `Right`. -/
theorem C10_turn_equals_right :
    (∀ (fuel : Nat) (e : Expression) (s : ProgramState),
      evaluate_node fuel (.Turn e) s = evaluate_node fuel (.Right e) s) ∧
    (∀ (t : Turtle) (d : Int), (t.right d).heading = (t.heading + d) % 360) := by
  refine ⟨fun fuel e s => ?_, fun t d => rfl⟩
  cases fuel with
  | zero => rfl
  | succ f => rfl

/-- Claim C8: a `StringLiteral` whose text is case-insensitively `"true"`
(resp. `"false"`) evaluates to `Integer 1` (resp. `Integer 0`); every
other `StringLiteral` evaluates to its raw `String` value; and the
coercion happens only at `StringLiteral` evaluation — a stored `String`
value (even one spelled like a boolean keyword) is returned unchanged by a
variable lookup. -/
theorem C8_string_literal_boolean_coercion :
    (∀ (s : ProgramState) (v : String), to_lowercase v = "true" →
      evaluate_expression (.StringLiteral v) s = .ok (integerValue 1)) ∧
    (∀ (s : ProgramState) (v : String), to_lowercase v = "false" →
      evaluate_expression (.StringLiteral v) s = .ok (integerValue 0)) ∧
    (∀ (s : ProgramState) (v : String),
      to_lowercase v ≠ "true" → to_lowercase v ≠ "false" →
      evaluate_expression (.StringLiteral v) s = .ok (stringValue v)) ∧
    (∀ (s : ProgramState) (name str : String),
      getStack s.stack name = some (some (stringValue str)) →
      evaluate_expression (.VariableReference name) s = .ok (stringValue str)) := by
  refine ⟨fun s v h => ?_, fun s v h => ?_, fun s v h1 h2 => ?_, fun s name str h => ?_⟩
  · simp [evaluate_expression, h]
  · simp [evaluate_expression, h]
  · simp [evaluate_expression, h1, h2]
  · simp [evaluate_expression, ProgramState.get_error_handled, ProgramState.get, h]

/-- Claim C8, witness: `"TRUE"` is coerced to `Integer 1` at literal
evaluation, while the stored string `"true"` in variable `b` is returned
uncoerced by a lookup. -/
theorem C8_witness :
    evaluate_expression (.StringLiteral "TRUE") state0 = .ok (integerValue 1) ∧
    evaluate_expression (.VariableReference "b") c8_state = .ok (stringValue "true") :=
  ⟨C8_string_literal_boolean_coercion.1 state0 "TRUE" (by decide),
   C8_string_literal_boolean_coercion.2.2.2 c8_state "b" "true" rfl⟩

/-- Claim C9: `And`/`Or` evaluate the left operand and then always the
right operand — a failure in the left propagates, a failure in the right
propagates even when the left alone determines the result (no
short-circuit) — and on two `Integer` operands the result is `Integer 1`
when the logical condition holds, `Integer 0` otherwise. -/
theorem C9_and_or_no_short_circuit :
    (∀ (s : ProgramState) (l r : Expression) (e : EvalErr),
      evaluate_expression l s = .error e →
      evaluate_expression (.And l r) s = .error e ∧
      evaluate_expression (.Or l r) s = .error e) ∧
    (∀ (s : ProgramState) (l r : Expression) (v : ExpressionValue) (e : EvalErr),
      evaluate_expression l s = .ok v → evaluate_expression r s = .error e →
      evaluate_expression (.And l r) s = .error e ∧
      evaluate_expression (.Or l r) s = .error e) ∧
    (∀ (s : ProgramState) (l r : Expression) (a b : Int),
      evaluate_expression l s = .ok (integerValue a) →
      evaluate_expression r s = .ok (integerValue b) →
      evaluate_expression (.And l r) s =
        .ok (integerValue (if a ≠ 0 ∧ b ≠ 0 then 1 else 0)) ∧
      evaluate_expression (.Or l r) s =
        .ok (integerValue (if a ≠ 0 ∨ b ≠ 0 then 1 else 0))) := by
  refine ⟨fun s l r e h => ⟨?_, ?_⟩, fun s l r v e h1 h2 => ⟨?_, ?_⟩,
    fun s l r a b h1 h2 => ⟨?_, ?_⟩⟩
  · simp [evaluate_expression, h]
  · simp [evaluate_expression, h]
  · simp [evaluate_expression, h1, h2]
  · simp [evaluate_expression, h1, h2]
  · simp [evaluate_expression, h1, h2, integerValue, unwrapInt]
  · simp [evaluate_expression, h1, h2, integerValue, unwrapInt]

/-- Claim C9, witness: with the left operand `0` (which alone would decide
`And`), a division by zero in the right operand still fires; and two
integer operands produce the `1`/`0` encoding. -/
theorem C9_witness :
    evaluate_expression
      (.And (.IntegerLiteral 0) (.Division (.IntegerLiteral 1) (.IntegerLiteral 0)))
      state0 = .error (.printError "division by zero") ∧
    evaluate_expression
      (.Or (.IntegerLiteral 0) (.IntegerLiteral 3)) state0 =
      .ok (integerValue (if (0 : Int) ≠ 0 ∨ (3 : Int) ≠ 0 then 1 else 0)) :=
  ⟨(C9_and_or_no_short_circuit.2.1 state0 (.IntegerLiteral 0)
      (.Division (.IntegerLiteral 1) (.IntegerLiteral 0))
      (integerValue 0) (.printError "division by zero") rfl rfl).1,
   (C9_and_or_no_short_circuit.2.2 state0 (.IntegerLiteral 0) (.IntegerLiteral 3)
      0 3 rfl rfl).2⟩

/-- Claim C7: on `Integer` operands with a non-zero divisor (and away from
the one pair `i32::MIN / -1`, where the native `i32` operation itself
panics — reproduced by the embedding), `Division`/`Modulo` return exactly
the truncated-toward-zero quotient/remainder; a zero divisor always fails
fatally with the "division by zero" diagnostic regardless of the dividend;
and the zero check runs after the integer type check, so a non-integer
operand with a zero divisor reports "type mismatch", not division by
zero. -/
theorem C7_division_modulo_semantics :
    (∀ (s : ProgramState) (a b : Int), inI32 a → inI32 b → b ≠ 0 →
      ¬(a = -(2 ^ 31) ∧ b = -1) →
      evaluate_expression (.Division (.IntegerLiteral a) (.IntegerLiteral b)) s =
        .ok (integerValue (Int.tdiv a b)) ∧
      evaluate_expression (.Modulo (.IntegerLiteral a) (.IntegerLiteral b)) s =
        .ok (integerValue (Int.tmod a b))) ∧
    (∀ (s : ProgramState) (a : Int),
      evaluate_expression (.Division (.IntegerLiteral a) (.IntegerLiteral 0)) s =
        .error (.printError "division by zero") ∧
      evaluate_expression (.Modulo (.IntegerLiteral a) (.IntegerLiteral 0)) s =
        .error (.printError "division by zero")) ∧
    (∀ (s : ProgramState),
      evaluate_expression (.Division (.StringLiteral "hello") (.IntegerLiteral 0)) s =
        .error (.printError "type mismatch") ∧
      evaluate_expression (.Modulo (.StringLiteral "hello") (.IntegerLiteral 0)) s =
        .error (.printError "type mismatch")) ∧
    (∀ (s : ProgramState),
      evaluate_expression
        (.Division (.IntegerLiteral (-(2 ^ 31))) (.IntegerLiteral (-1))) s =
        .error .panic ∧
      evaluate_expression
        (.Modulo (.IntegerLiteral (-(2 ^ 31))) (.IntegerLiteral (-1))) s =
        .error .panic) := by
  refine ⟨fun s a b h1 h2 h3 h4 => ⟨?_, ?_⟩, fun s a => ⟨?_, ?_⟩,
    fun s => ⟨rfl, rfl⟩, fun s => ⟨rfl, rfl⟩⟩
  · simp only [evaluate_expression, integerValue, unwrapInt, h3, h4]
    simp [h3]
  · simp only [evaluate_expression, integerValue, unwrapInt, h3, h4]
    simp [h3]
  · rfl
  · rfl

/-- Claim C7, witness: `7 / -2` and `7 % -2` truncate toward zero
(quotient `-3`, remainder `1`), and division by zero at dividend `7` is a
fatal diagnostic. -/
theorem C7_witness :
    (evaluate_expression (.Division (.IntegerLiteral 7) (.IntegerLiteral (-2)))
        state0 = .ok (integerValue (Int.tdiv 7 (-2))) ∧
      evaluate_expression (.Modulo (.IntegerLiteral 7) (.IntegerLiteral (-2)))
        state0 = .ok (integerValue (Int.tmod 7 (-2)))) ∧
    Int.tdiv 7 (-2) = -3 ∧ Int.tmod 7 (-2) = 1 ∧
    evaluate_expression (.Division (.IntegerLiteral 7) (.IntegerLiteral 0)) state0 =
      .error (.printError "division by zero") :=
  ⟨C7_division_modulo_semantics.1 state0 7 (-2) (by decide) (by decide)
      (by decide) (by decide),
    by decide, by decide,
    (C7_division_modulo_semantics.2.1 state0 7).1⟩

/-- Claim C5: looking a name up resolves to the most-recently-pushed stack
entry with that name; `Make` always pushes a new binding; and in the
concrete scenario — `Make "x 1`, then a call binding parameter `x` to `2`
whose body reads `:x`, then a read of `:x` after the call — the body
observes `2` while the read after the call observes `1` again (parameter
bindings popped). -/
theorem C5_scope_stack_shadowing :
    (∀ (name : String) (v : Option ExpressionValue)
        (rest : List (String × Option ExpressionValue)),
      getStack ((name, v) :: rest) name = some v) ∧
    (∀ (other name : String) (v : Option ExpressionValue)
        (rest : List (String × Option ExpressionValue)), other ≠ name →
      getStack ((other, v) :: rest) name = getStack rest name) ∧
    (∀ (s : ProgramState) (id : Identifier) (expr : Expression)
        (v : ExpressionValue) (fuel : Nat),
      evaluate_expression expr s = .ok v →
      evaluate_node (fuel + 1) (.Make id expr) s =
        .ok { s with stack := (id.name, some v) :: s.stack }) ∧
    result_trace (evaluate_ast 20 c5_program state0) =
      some [.forward 2, .forward 1] ∧
    result_stack (evaluate_ast 20 c5_program state0) =
      some [("x", some (integerValue 1))] := by
  refine ⟨getStack_cons_self, getStack_cons_other, fun s id expr v fuel h => ?_,
    rfl, rfl⟩
  simp [evaluate_node, h]

/-- Claim C5, witness: a head entry with a different name is skipped by
the lookup, and `Make "x 1` on the initial state pushes the binding. -/
theorem C5_witness :
    getStack [("y", none)] "x" = getStack [] "x" ∧
    evaluate_node 1 (.Make ⟨"x", "\""⟩ (.IntegerLiteral 1)) state0 =
      .ok { state0 with stack := [("x", some (integerValue 1))] } :=
  ⟨C5_scope_stack_shadowing.2.1 "y" "x" none [] (by decide),
   C5_scope_stack_shadowing.2.2.1 state0 ⟨"x", "\""⟩ (.IntegerLiteral 1)
     (integerValue 1) 0 rfl⟩

/-- Claim C6: with `x` bound to `Integer n` and the operand evaluating to
`Integer m`, `AddAssign` replaces the most recent binding of `x` in place
with the (`i32`) sum: the stack length is unchanged, `x` now reads as the
sum, every other name reads as before, and no turtle call is made; in the
concrete scenario `Make "x 5` then `AddAssign "x 3`, reading `:x` yields
`8` with a single-entry stack. -/
theorem C6_addassign_in_place :
    (∀ (s : ProgramState) (x q : String) (expr : Expression) (n m : Int)
        (fuel : Nat),
      getStack s.stack x = some (some (integerValue n)) →
      evaluate_expression expr s = .ok (integerValue m) →
      ∃ s', evaluate_node (fuel + 1) (.AddAssign ⟨x, q⟩ expr) s = .ok s' ∧
        s'.turtle = s.turtle ∧
        s'.stack.length = s.stack.length ∧
        getStack s'.stack x = some (some (integerValue (wrap32 (n + m)))) ∧
        (inI32 (n + m) →
          getStack s'.stack x = some (some (integerValue (n + m)))) ∧
        (∀ y, y ≠ x → getStack s'.stack y = getStack s.stack y)) ∧
    result_stack (evaluate_ast 20
      [ .Make ⟨"x", "\""⟩ (.IntegerLiteral 5),
        .AddAssign ⟨"x", "\""⟩ (.IntegerLiteral 3) ] state0) =
      some [("x", some (integerValue 8))] := by
  refine ⟨fun s x q expr n m fuel h1 h2 => ?_, rfl⟩
  have hc : stackContains s.stack x = true := getStack_contains _ _ _ h1
  refine ⟨s.set x (some (integerValue (wrap32 (n + m)))), ?_, rfl, ?_, ?_, ?_, ?_⟩
  · simp [evaluate_node, h1, h2, ProgramState.get_error_handled,
      ProgramState.get, unwrapInt, integerValue]
  · simp [ProgramState.set, setStack, hc, replaceMostRecent_length]
  · simp [ProgramState.set, setStack, hc, getStack_replaceMostRecent_self]
  · intro hrange
    rw [wrap32_of_inI32 _ hrange]
    simp [ProgramState.set, setStack, hc, getStack_replaceMostRecent_self]
  · intro y hy
    simp [ProgramState.set, setStack, hc, getStack_replaceMostRecent_other _ _ _ _ hy]

/-- Claim C6, witness: with `x` bound to `5` and operand `3`, the
`AddAssign` yields a state whose stack still has one entry, reads `8` for
`x`, and reads unchanged for any other name. -/
theorem C6_witness :
    ∃ s', evaluate_node 1 (.AddAssign ⟨"x", "\""⟩ (.IntegerLiteral 3)) c6_state =
        .ok s' ∧
      s'.turtle = c6_state.turtle ∧
      s'.stack.length = c6_state.stack.length ∧
      getStack s'.stack "x" = some (some (integerValue (wrap32 (5 + 3)))) ∧
      (inI32 (5 + 3) → getStack s'.stack "x" = some (some (integerValue (5 + 3)))) ∧
      (∀ y, y ≠ "x" → getStack s'.stack y = getStack c6_state.stack y) :=
  C6_addassign_in_place.1 c6_state "x" "\"" (.IntegerLiteral 3) 5 3 0 rfl rfl

/-- Claim C1, counterexample: on input `"]"` the combinator run stops with
the non-empty remainder `"]"` unconsumed, yet `parse_program` returns a
`Block` (the empty one) instead of failing. -/
theorem C1_counterexample :
    parse_all_run "]" = .ok [']'] [] ∧
    ([']'] : List Char) ≠ [] ∧
    parse_program "]" = Except.ok [] :=
  ⟨rfl, by decide, rfl⟩

/-- Claim C1 (amended): when the combinator run succeeds — even with
non-empty unparsed input remaining — `parse_program` returns the parsed
`Block` and silently discards the remainder; concretely, `"PENUP ]"`
leaves `"]"` unconsumed and still yields `[PenUp]`. -/
theorem C1_trailing_input_discarded :
    (∀ (content : String) (rest : PInput) (ast : Block),
      parse_all_run content = .ok rest ast →
      parse_program content = Except.ok ast) ∧
    parse_all_run "PENUP ]" = .ok [']'] [.PenUp] ∧
    parse_program "PENUP ]" = Except.ok [.PenUp] := by
  refine ⟨fun content rest ast h => ?_, rfl, rfl⟩
  simp [parse_program, h]

/-- Claim C1, witness: the general statement applied to the input `"]"`,
whose combinator run leaves the non-empty remainder `"]"`. -/
theorem C1_witness : parse_program "]" = Except.ok [] :=
  C1_trailing_input_discarded.1 "]" [']'] [] rfl

/-- Claim C2, counterexample: calling `P "2 :x` (parameters `x`, `y`, body
reporting `y` through `forward`) in a state where the caller's `x` is `1`:
the implementation reports `forward 2` — the second argument `:x` observed
the binding `x := 2` pushed for this same call — while the
caller-scope-then-push-all semantics the claim describes reports
`forward 1`. -/
theorem C2_counterexample :
    result_trace (evaluate_node 10
      (.ProcedureCall ⟨"P", ""⟩ c2_call_arguments) c2_state) =
      some [.forward 2] ∧
    result_trace (procedure_call_spec 10 ⟨"P", ""⟩ c2_call_arguments c2_state) =
      some [.forward 1] ∧
    some [TurtleOp.forward 2] ≠ some [TurtleOp.forward 1] :=
  ⟨rfl, rfl, by decide⟩

/-- Claim C2 (amended): arguments are evaluated left to right and each
`(parameter, value)` pair is pushed immediately after its argument is
evaluated — so the first argument is evaluated in the pure caller scope,
while a later argument's evaluation observes the parameter bindings of the
earlier arguments of this same call. Concretely: `:x` is `1` in the caller
scope but `2` once the first parameter has been pushed, and the body of
the scenario call reports `2`. -/
theorem C2_arguments_interleaved_with_pushes :
    (∀ (arg : Expression) (args : List Expression) (p : String)
        (ps : List String) (s : ProgramState) (v : ExpressionValue),
      evaluate_expression arg s = .ok v →
      bindArguments (arg :: args) (p :: ps) s =
        bindArguments args ps (s.push p (some v))) ∧
    evaluate_expression (.VariableReference "x") c2_state =
      .ok (integerValue 1) ∧
    evaluate_expression (.VariableReference "x")
      (c2_state.push "x" (some (integerValue 2))) = .ok (integerValue 2) ∧
    result_trace (evaluate_node 10
      (.ProcedureCall ⟨"P", ""⟩ c2_call_arguments) c2_state) =
      some [.forward 2] := by
  refine ⟨fun arg args p ps s v h => ?_, rfl, rfl, rfl⟩
  simp [bindArguments, h]

/-- Claim C2, witness: binding the scenario call's arguments starts by
evaluating the first argument in the caller scope and pushing its pair
before the remaining arguments are processed. -/
theorem C2_witness :
    bindArguments c2_call_arguments ["x", "y"] c2_state =
      bindArguments [.VariableReference "x"] ["y"]
        (c2_state.push "x" (some (integerValue 2))) :=
  C2_arguments_interleaved_with_pushes.1 (.IntegerLiteral 2)
    [.VariableReference "x"] "x" ["y"] c2_state (integerValue 2) rfl

/-- Claim C3, counterexample: with `x` holding the string `"hello"`,
`ADDASSIGN "x 3` fails by a Rust panic (`unwrap` on a `None`
`integer_value`), not with the "type mismatch" diagnostic the claim
describes. -/
theorem C3_counterexample :
    evaluate_node 1 (.AddAssign ⟨"x", "\""⟩ (.IntegerLiteral 3)) c3_state =
      .error .panic ∧
    EvalErr.panic ≠ .printError "type mismatch" :=
  ⟨rfl, by decide⟩

/-- Claim C3 (amended): the `AddAssign` arm performs no type check; when
either the current value of the variable or the evaluated operand is not
an `Integer`, evaluation fails fatally by a Rust panic (`Option::unwrap`
on `None`) rather than with a "type mismatch" diagnostic. -/
theorem C3_addassign_panics_on_non_integer :
    ∀ (s : ProgramState) (id : Identifier) (expr : Expression)
      (v cur : ExpressionValue) (fuel : Nat),
      evaluate_expression expr s = .ok v →
      s.get_error_handled id.name = .ok cur →
      cur.integer_value = none ∨ v.integer_value = none →
      evaluate_node (fuel + 1) (.AddAssign id expr) s = .error .panic := by
  intro s id expr v cur fuel h1 h2 h3
  cases h3 with
  | inl hcur => simp [evaluate_node, h1, h2, hcur, unwrapInt]
  | inr hv =>
    cases hcase : cur.integer_value with
    | none => simp [evaluate_node, h1, h2, hcase, unwrapInt]
    | some c => simp [evaluate_node, h1, h2, hcase, hv, unwrapInt]

/-- Claim C3, witness: the amended statement applied to a concrete state
with `y = "world"` and operand `4`. -/
theorem C3_witness :
    evaluate_node 1 (.AddAssign ⟨"y", "\""⟩ (.IntegerLiteral 4))
      c3_state_y = .error .panic :=
  C3_addassign_panics_on_non_integer c3_state_y ⟨"y", "\""⟩ (.IntegerLiteral 4)
    (integerValue 4) (stringValue "world") 0 rfl rfl (Or.inl rfl)

/-- Claim C4, counterexample: the input `PENUP 1` does not fail with an
arity error at all — `1` is not a parseable expression, so the arity check
sees zero arguments and the input parses as `PenUp` followed by a call to
a procedure named `1`; the run then fails only during evaluation, with
"procedure not found" (a different diagnostic), after the `penup` turtle
call has already been made. -/
theorem C4_counterexample :
    parse_program "PENUP 1" = Except.ok c4_ast ∧
    evaluate_ast 10 c4_ast state0 = .error (.printError "procedure not found") ∧
    result_trace (evaluate_node 10 .PenUp state0) = some [.penup] ∧
    EvalErr.printError "procedure not found" ≠
      .printError "incorrect argument count" :=
  ⟨rfl, rfl, rfl, by decide⟩

/-- Claim C4 (amended): for the input `PENUP "1` — a zero-argument keyword
given one parseable argument — parsing fails fatally with the
"incorrect argument count" diagnostic (ArityError), so evaluation never
begins and no turtle side effect occurs; the unquoted input `PENUP 1`
instead parses as `PenUp` plus a call to an undefined procedure `1` and
fails only at evaluation time. -/
theorem C4_quoted_argument_arity_error :
    parse_program "PENUP \"1" = Except.error "incorrect argument count" ∧
    run_program "PENUP \"1" turtle0 20 =
      .error (.printError "incorrect argument count") :=
  ⟨rfl, rfl⟩
